import Mathlib

/-!
HotRide authentication/session layer: a shallow embedding.

This file embeds the client-side session lifecycle of the HotRide mobile app
(`mobile/utils/storage.ts`, `mobile/store/authStore.ts`, the root layout's
`checkStoredAuth` restore and route guard, `mobile/services/api.ts`'s response
interceptor, the login form, and the Apple/Google sign-in hooks) and proves
properties about it.

Modelling conventions:
* Secure storage has two named slots (`hotride_auth_token`, `hotride_user_data`).
  The user slot physically holds `JSON.stringify(user)`; `JSON.stringify`
  followed by `JSON.parse` on the flat `User` record is a lossless platform
  codec, so the slot is modelled as holding the record itself.
* Each platform storage primitive may fail (throw).  A `StorageEnv` records,
  per primitive, whether its underlying platform call fails in the scenario
  under consideration.
* JavaScript exceptions are modelled with `Except`; a thrown exception carries
  the (memory, storage) state observable at the throw point.  Functions whose
  source catches every exception return a plain value.
-/

namespace HotRide

/-- The `User` record from `mobile/services/auth.ts`. -/
structure User where
  id : String
  email : Option String := none
  phone : Option String := none
  full_name : Option String := none
  profile_picture_url : Option String := none
  oauth_provider : String := "email"
deriving Repr, DecidableEq

/-- The two named slots of the secure client store
(`hotride_auth_token`, `hotride_user_data` in `mobile/utils/storage.ts`). -/
structure Store where
  tokenSlot : Option String := none
  userSlot : Option User := none
deriving Repr, DecidableEq

/-- Per-primitive failure oracle for the platform storage backend
(SecureStore / localStorage).  `true` means the underlying call throws. -/
structure StorageEnv where
  saveTokenFails : Bool := false
  saveUserFails : Bool := false
  getTokenFails : Bool := false
  getUserFails : Bool := false
  removeTokenFails : Bool := false
  removeUserFails : Bool := false
deriving Repr, DecidableEq

/-- Function `saveToken` (storage.ts): writes the token slot; a platform failure is
logged and rethrown, leaving the slot unchanged. -/
def saveToken (env : StorageEnv) (st : Store) (token : String) : Except Unit Store :=
  if env.saveTokenFails then .error () else .ok { st with tokenSlot := some token }

/-- Function `getToken` (storage.ts): reads the token slot; a platform failure is
caught and reported as `null`.  Never throws. -/
def getToken (env : StorageEnv) (st : Store) : Option String :=
  if env.getTokenFails then none else st.tokenSlot

/-- Function `removeToken` (storage.ts): deletes the token slot; a platform failure is
caught and only logged, so the slot keeps its value.  Never throws. -/
def removeToken (env : StorageEnv) (st : Store) : Store :=
  if env.removeTokenFails then st else { st with tokenSlot := none }

/-- Function `saveUser` (storage.ts): serializes and writes the user slot; a platform
failure is logged and rethrown, leaving the slot unchanged. -/
def saveUser (env : StorageEnv) (st : Store) (user : User) : Except Unit Store :=
  if env.saveUserFails then .error () else .ok { st with userSlot := some user }

/-- Function `getUser` (storage.ts): reads and parses the user slot; any failure
(platform read or `JSON.parse`) is caught and reported as `null`. -/
def getUser (env : StorageEnv) (st : Store) : Option User :=
  if env.getUserFails then none else st.userSlot

/-- Function `removeUser` (storage.ts): deletes the user slot; a platform failure is
caught and only logged, so the slot keeps its value.  Never throws. -/
def removeUser (env : StorageEnv) (st : Store) : Store :=
  if env.removeUserFails then st else { st with userSlot := none }

/-- The in-memory Zustand auth state (`mobile/store/authStore.ts`). -/
structure AuthState where
  user : Option User := none
  token : Option String := none
  isAuthenticated : Bool := false
deriving Repr, DecidableEq

/-- The state the store is created with: unauthenticated, no user, no token. -/
def initialAuthState : AuthState := {}

/-- Function `setAuth` (authStore.ts): awaits `saveToken`, then `saveUser`, then sets
the in-memory state.  An exception from either save propagates to the caller;
the error value carries the (memory, storage) state at the throw point. -/
def setAuth (env : StorageEnv) (mem : AuthState) (st : Store) (token : String)
    (user : User) : Except (AuthState × Store) (AuthState × Store) :=
  match saveToken env st token with
  | .error _ => .error (mem, st)
  | .ok st1 =>
    match saveUser env st1 user with
    | .error _ => .error (mem, st1)
    | .ok st2 =>
      .ok ({ user := some user, token := some token, isAuthenticated := true }, st2)

/-- Function `logout` (authStore.ts): awaits `removeToken`, then `removeUser` (neither
throws: their platform failures are swallowed inside storage.ts), then clears
the in-memory state.  Always returns normally. -/
def logout (env : StorageEnv) (mem : AuthState) (st : Store) : AuthState × Store :=
  let st1 := removeToken env st
  let st2 := removeUser env st1
  ({ user := none, token := none, isAuthenticated := false }, st2)

/-- Function `checkStoredAuth` (root layout): at process start reads both slots and
calls `setAuth` only when both reads are truthy (a `null` or empty-string
token is falsy; a parsed user record is a truthy object).  The surrounding
`try`/`catch` swallows any exception `setAuth` throws, so restore always
completes normally; the result is the (memory, storage) state afterwards.
The unused `mem` argument is the in-memory state at process start. -/
def checkStoredAuth (env : StorageEnv) (mem : AuthState) (st : Store) :
    AuthState × Store :=
  match getToken env st, getUser env st with
  | some t, some u =>
    if t = "" then (mem, st)
    else
      match setAuth env mem st t u with
      | .ok r => r
      | .error r => r
  | some _, none => (mem, st)
  | none, _ => (mem, st)

/-- A sample user record used for concrete counterexamples and witnesses. -/
def demoUser : User :=
  { id := "u1", email := some "jane@example.com", oauth_provider := "email" }

/-- A second sample user record, distinct from `demoUser`. -/
def demoUser2 : User :=
  { id := "u2", email := some "old@example.com", oauth_provider := "email" }

/-- C1 counterexample: when `saveUser` fails after `saveToken` succeeded,
`setAuth` leaves the token slot written with no user slot — a partial
persisted session IS observable afterwards, contrary to the claim. -/
theorem setAuth_userSaveFails_partial_persisted :
    setAuth { saveUserFails := true } initialAuthState {} "tok" demoUser
      = .error (initialAuthState, { tokenSlot := some "tok", userSlot := none }) := rfl

/-- C1 (amended): if persisting the user snapshot fails after the token was
persisted, `setAuth` throws with the in-memory auth state unchanged (so it
remains unauthenticated), but the token slot stays written without the user
snapshot — partial persisted state is observable at the storage level.  When
no user snapshot was previously stored, a subsequent restore still yields no
session. -/
theorem setAuth_userSaveFails_not_established (env : StorageEnv) (mem : AuthState)
    (st : Store) (token : String) (user : User)
    (hTok : env.saveTokenFails = false) (hUser : env.saveUserFails = true) :
    setAuth env mem st token user = .error (mem, { st with tokenSlot := some token })
      ∧ (st.userSlot = none →
          (checkStoredAuth env initialAuthState { st with tokenSlot := some token }).1
            = initialAuthState) := by
  constructor
  · simp [setAuth, saveToken, saveUser, hTok, hUser]
  · intro hus
    simp only [checkStoredAuth, getToken, getUser, hus]
    cases hgt : env.getTokenFails <;> cases hgu : env.getUserFails <;> simp

/-- C1 witness: the amended theorem applied at a concrete failing scenario. -/
theorem setAuth_userSaveFails_not_established_witness :
    setAuth { saveUserFails := true } initialAuthState {} "tok" demoUser
        = .error (initialAuthState, { tokenSlot := some "tok" })
      ∧ (({} : Store).userSlot = none →
          (checkStoredAuth { saveUserFails := true } initialAuthState
              { tokenSlot := some "tok" }).1 = initialAuthState) :=
  setAuth_userSaveFails_not_established { saveUserFails := true } initialAuthState {}
    "tok" demoUser rfl rfl

/-- C2 counterexample: establishing a session with the empty token string
succeeds and persists both slots, yet restore treats the empty string as
falsy and leaves the app unauthenticated — the round trip fails for the
token `""`. -/
theorem establish_restore_empty_token_fails :
    setAuth {} initialAuthState {} "" demoUser
        = .ok ({ user := some demoUser, token := some "", isAuthenticated := true },
               { tokenSlot := some "", userSlot := some demoUser })
      ∧ (checkStoredAuth {} initialAuthState
            { tokenSlot := some "", userSlot := some demoUser }).1.isAuthenticated
          = false :=
  ⟨rfl, rfl⟩

/-- C2 (amended): for every NON-EMPTY token string and every user record,
`setAuth` followed by a fresh-process restore (`checkStoredAuth` on the
persisted store) yields an equivalent session: same token, equal user. -/
theorem establish_then_restore_roundtrip (mem : AuthState) (st : Store)
    (token : String) (user : User) (h : token ≠ "") :
    setAuth {} mem st token user
        = .ok ({ user := some user, token := some token, isAuthenticated := true },
               { st with tokenSlot := some token, userSlot := some user })
      ∧ (checkStoredAuth {} initialAuthState
            { st with tokenSlot := some token, userSlot := some user }).1
          = { user := some user, token := some token, isAuthenticated := true } := by
  refine ⟨rfl, ?_⟩
  simp [checkStoredAuth, getToken, getUser, setAuth, saveToken, saveUser, h]

/-- C2 witness: the round trip evaluated on a concrete token and user. -/
theorem establish_then_restore_roundtrip_witness :
    setAuth {} initialAuthState {} "t" demoUser
        = .ok ({ user := some demoUser, token := some "t", isAuthenticated := true },
               { tokenSlot := some "t", userSlot := some demoUser })
      ∧ (checkStoredAuth {} initialAuthState
            { tokenSlot := some "t", userSlot := some demoUser }).1
          = { user := some demoUser, token := some "t", isAuthenticated := true } :=
  establish_then_restore_roundtrip initialAuthState {} "t" demoUser (by decide)

/-- C3 counterexample: when both platform delete operations fail, `logout`
returns normally (errors swallowed inside storage.ts) with BOTH slots still
populated, and a subsequent restore re-establishes the session — contrary to
the claim that both slots are gone even if deletion fails and that restore
yields no session. -/
theorem logout_removeFails_slots_remain :
    logout { removeTokenFails := true, removeUserFails := true }
        { user := some demoUser, token := some "tok", isAuthenticated := true }
        { tokenSlot := some "tok", userSlot := some demoUser }
      = ({ user := none, token := none, isAuthenticated := false },
         { tokenSlot := some "tok", userSlot := some demoUser })
    ∧ (checkStoredAuth {} initialAuthState
          { tokenSlot := some "tok", userSlot := some demoUser }).1.isAuthenticated
        = true :=
  ⟨rfl, rfl⟩

/-- C3 (amended): `logout` always clears the in-memory session; when neither
platform delete operation fails, both persisted slots are removed before it
returns, and a subsequent restore (under any storage environment) yields no
session. -/
theorem logout_success_clears_both_slots (env : StorageEnv) (mem : AuthState)
    (st : Store) (hTok : env.removeTokenFails = false)
    (hUser : env.removeUserFails = false) :
    logout env mem st
        = ({ user := none, token := none, isAuthenticated := false },
           { tokenSlot := none, userSlot := none })
      ∧ ∀ env2 : StorageEnv,
          checkStoredAuth env2 initialAuthState { tokenSlot := none, userSlot := none }
            = (initialAuthState, { tokenSlot := none, userSlot := none }) := by
  constructor
  · simp [logout, removeToken, removeUser, hTok, hUser]
  · intro env2
    simp [checkStoredAuth, getToken, getUser]

/-- C3 witness: logout with a healthy storage backend, on a live session. -/
theorem logout_success_clears_both_slots_witness :
    logout {} { user := some demoUser, token := some "tok", isAuthenticated := true }
        { tokenSlot := some "tok", userSlot := some demoUser }
        = ({ user := none, token := none, isAuthenticated := false },
           { tokenSlot := none, userSlot := none })
      ∧ ∀ env2 : StorageEnv,
          checkStoredAuth env2 initialAuthState { tokenSlot := none, userSlot := none }
            = (initialAuthState, { tokenSlot := none, userSlot := none }) :=
  logout_success_clears_both_slots {}
    { user := some demoUser, token := some "tok", isAuthenticated := true }
    { tokenSlot := some "tok", userSlot := some demoUser } rfl rfl

/-- Helper: a successful token read implies the slot holds that token. -/
theorem getToken_eq_some {env : StorageEnv} {st : Store} {t : String}
    (h : getToken env st = some t) : st.tokenSlot = some t := by
  cases hf : env.getTokenFails <;> simp [getToken, hf] at h <;> try exact h

/-- Helper: a successful user read implies the slot holds that user. -/
theorem getUser_eq_some {env : StorageEnv} {st : Store} {u : User}
    (h : getUser env st = some u) : st.userSlot = some u := by
  cases hf : env.getUserFails <;> simp [getUser, hf] at h <;> try exact h

/-- Helper: restore is the identity when the token read yields nothing. -/
theorem checkStoredAuth_noToken (env : StorageEnv) (mem : AuthState) (st : Store)
    (h : getToken env st = none) : checkStoredAuth env mem st = (mem, st) := by
  unfold checkStoredAuth
  rw [h]

/-- Helper: restore is the identity when the user read yields nothing. -/
theorem checkStoredAuth_noUser (env : StorageEnv) (mem : AuthState) (st : Store)
    (h : getUser env st = none) : checkStoredAuth env mem st = (mem, st) := by
  unfold checkStoredAuth
  rw [h]
  cases getToken env st <;> rfl

/-- C10: startup restore authenticates only when the token slot holds a
non-empty token and the user slot holds a record; with a partial persisted
session (either slot absent) or a failing storage read, restore returns
normally (the source's `try`/`catch`/`finally` is encoded by `checkStoredAuth`
being a total function) with the app still unauthenticated. -/
theorem checkStoredAuth_requires_both_slots (env : StorageEnv) (st : Store) :
    ((checkStoredAuth env initialAuthState st).1.isAuthenticated = true →
        ∃ t u, st.tokenSlot = some t ∧ t ≠ "" ∧ st.userSlot = some u)
      ∧ (st.tokenSlot = none ∨ st.userSlot = none ∨ env.getTokenFails = true
            ∨ env.getUserFails = true →
          checkStoredAuth env initialAuthState st = (initialAuthState, st)) := by
  constructor
  · intro hauth
    unfold checkStoredAuth at hauth
    cases hgt : getToken env st with
    | none => rw [hgt] at hauth; simp [initialAuthState] at hauth
    | some t =>
      cases hgu : getUser env st with
      | none => rw [hgt, hgu] at hauth; simp [initialAuthState] at hauth
      | some u =>
        rw [hgt, hgu] at hauth
        by_cases ht : t = ""
        · simp [ht, initialAuthState] at hauth
        · exact ⟨t, u, getToken_eq_some hgt, ht, getUser_eq_some hgu⟩
  · intro h
    rcases h with h | h | h | h
    · exact checkStoredAuth_noToken _ _ _ (by simp [getToken, h])
    · exact checkStoredAuth_noUser _ _ _ (by simp [getUser, h])
    · exact checkStoredAuth_noToken _ _ _ (by simp [getToken, h])
    · exact checkStoredAuth_noUser _ _ _ (by simp [getUser, h])

/-- C10 witness: token slot present but the user read fails — restore is a
no-op and the app stays unauthenticated. -/
theorem checkStoredAuth_requires_both_slots_witness :
    checkStoredAuth { getUserFails := true } initialAuthState { tokenSlot := some "t" }
      = (initialAuthState, { tokenSlot := some "t" }) :=
  (checkStoredAuth_requires_both_slots { getUserFails := true }
      { tokenSlot := some "t" }).2 (Or.inr (Or.inr (Or.inr rfl)))

/-! Route guard (root layout). -/

/-- Decision of the navigation guard. -/
inductive GuardDecision
  | allow
  | redirectToLogin
  | redirectToHome
deriving Repr, DecidableEq

/-- The `publicRoutes` list from the root layout. -/
def publicRoutes : List String :=
  ["login", "signup", "verify-email", "verify-phone", "profile-setup-full",
   "enable-location"]

/-- The route-guard effect in the root layout, as a function of the
authentication flag and `segments[0]`.  `none` models the index route, where
`useSegments()` has no first segment and `currentRoute` is undefined (falsy),
so the first branch's `currentRoute &&`-check fails. -/
def routeGuard (isAuthenticated : Bool) (currentRoute : Option String) :
    GuardDecision :=
  let isPublicRoute :=
    match currentRoute with
    | some r => publicRoutes.contains r
    | none => false
  if !isAuthenticated && !isPublicRoute && currentRoute.isSome then .redirectToLogin
  else if isAuthenticated && decide (currentRoute = some "login") then .redirectToHome
  else .allow

/-- The route-guard decision exactly as claim C5 states it (written from the
spec's words, for comparison with `routeGuard`): redirect to login whenever no
session is present and the route is protected, i.e. not in the public-route
set; redirect home whenever a session is present on the login route; allow
otherwise. -/
def routeGuardClaim (isAuthenticated : Bool) (currentRoute : Option String) :
    GuardDecision :=
  let isPublicRoute :=
    match currentRoute with
    | some r => publicRoutes.contains r
    | none => false
  if !isAuthenticated && !isPublicRoute then .redirectToLogin
  else if isAuthenticated && decide (currentRoute = some "login") then .redirectToHome
  else .allow

/-- The route-guard decision as the amended claim states it: the root/index
route (no first segment) is always allowed; a non-root route not in the
public set redirects to login when unauthenticated; the login route redirects
home when authenticated; everything else is allowed. -/
def routeGuardAmended (isAuthenticated : Bool) (currentRoute : Option String) :
    GuardDecision :=
  match currentRoute with
  | none => .allow
  | some r =>
    if !isAuthenticated && !(publicRoutes.contains r) then .redirectToLogin
    else if isAuthenticated && decide (r = "login") then .redirectToHome
    else .allow

/-- C5 counterexample: at the root/index route (no first segment) with no
session, the guard allows navigation, while the claim's rule — the route is
not in the public set, hence protected — demands a redirect to login. -/
theorem routeGuard_root_route_cex :
    routeGuard false none = .allow ∧ routeGuardClaim false none = .redirectToLogin :=
  ⟨rfl, rfl⟩

/-- C5 (amended): the guard decision coincides everywhere with the amended
rules, which exempt the root/index route from the protected-route redirect. -/
theorem routeGuard_matches_amended_rules (auth : Bool) (route : Option String) :
    routeGuard auth route = routeGuardAmended auth route := by
  cases route with
  | none => cases auth <;> rfl
  | some r =>
    by_cases hr : r = "login"
    · subst hr; cases auth <;> rfl
    · cases auth <;> cases hp : publicRoutes.contains r <;>
        simp [routeGuard, routeGuardAmended, hp, hr]

/-! API response interceptor (mobile/services/api.ts). -/

/-- The toasts the interceptor can show. -/
inductive Toast
  | requestTimedOut
  | noInternet
  | sessionExpired
  | somethingWentWrong
deriving Repr, DecidableEq

/-- Observable actions of one pass through the response-error interceptor. -/
structure InterceptorOutcome where
  toast : Option Toast
  logoutCalled : Bool
  redirectedTo : Option String
  rejected : Bool
deriving Repr, DecidableEq

/-- The axios response-error interceptor: `status = none` models a network
error with no response (`isTimeout` distinguishes `ECONNABORTED`); otherwise
the HTTP status is inspected.  Every branch re-rejects the error; no branch
invokes the auth store's `logout` or navigates. -/
def responseErrorInterceptor (status : Option Nat) (isTimeout : Bool) :
    InterceptorOutcome :=
  match status with
  | none =>
    if isTimeout then
      { toast := some .requestTimedOut, logoutCalled := false,
        redirectedTo := none, rejected := true }
    else
      { toast := some .noInternet, logoutCalled := false,
        redirectedTo := none, rejected := true }
  | some s =>
    if s = 401 then
      { toast := some .sessionExpired, logoutCalled := false,
        redirectedTo := none, rejected := true }
    else if s = 500 then
      { toast := some .somethingWentWrong, logoutCalled := false,
        redirectedTo := none, rejected := true }
    else
      { toast := none, logoutCalled := false, redirectedTo := none,
        rejected := true }

/-- C4 (code bug): on a 401 the interceptor only shows the session-expired
toast and rejects the promise; it performs no `logout()` and no redirect —
indeed no status or network error ever triggers either — contradicting the
spec's required automatic logout and the interceptor's own comment. -/
theorem interceptor_401_no_logout :
    responseErrorInterceptor (some 401) false
        = { toast := some .sessionExpired, logoutCalled := false,
            redirectedTo := none, rejected := true }
      ∧ ∀ (status : Option Nat) (isTimeout : Bool),
          (responseErrorInterceptor status isTimeout).logoutCalled = false
            ∧ (responseErrorInterceptor status isTimeout).redirectedTo = none := by
  refine ⟨rfl, ?_⟩
  intro status isTimeout
  cases status with
  | none => cases isTimeout <;> exact ⟨rfl, rfl⟩
  | some s =>
    by_cases h1 : s = 401 <;> by_cases h2 : s = 500 <;>
      simp [responseErrorInterceptor, h1, h2]

/-! Client-side validators (mobile/utils/validators.ts). -/

/-- Character class of the email regex excluding whitespace and the at sign. -/
def emailChar (c : Char) : Bool := !c.isWhitespace && !(c = '@')

/-- Truth of a domain containing a dot that is neither its first nor its
last character (the backtracking semantics of the regex tail). -/
def hasInteriorDot (s : String) : Bool :=
  match s.toList with
  | [] => false
  | _ :: rest => rest.dropLast.contains '.'

/-- Function `validateEmail`: the anchored regex demanding one-or-more
non-space non-at characters, an at sign, and a domain with an interior dot. -/
def validateEmail (email : String) : Bool :=
  match email.splitOn "@" with
  | [localPart, domain] =>
    localPart != "" && localPart.all emailChar
      && domain != "" && domain.all emailChar && hasInteriorDot domain
  | _ => false

/-- Characters stripped by `validatePhone` before matching. -/
def phoneStripChar (c : Char) : Bool :=
  c.isWhitespace || c = '-' || c = '(' || c = ')'

/-- The cleaned phone string. -/
def cleanedPhone (phone : String) : String :=
  String.mk (phone.toList.filter fun c => !phoneStripChar c)

/-- The anchored regex asking for ten or more digits and nothing else. -/
def atLeastTenDigits (s : String) : Bool :=
  decide (10 ≤ s.length) && s.all Char.isDigit

/-- Function `validatePhone`: cleans the input, then requires ten-plus digits,
optionally after a leading plus sign. -/
def validatePhone (phone : String) : Bool :=
  let cleaned := cleanedPhone phone
  if cleaned.startsWith "+" then atLeastTenDigits (cleaned.drop 1)
  else atLeastTenDigits cleaned

/-- Result record of `validatePassword`. -/
structure PasswordValidation where
  isValid : Bool
  error : Option String := none
deriving Repr, DecidableEq

/-- Function `validatePassword`: at least eight characters. -/
def validatePassword (password : String) : PasswordValidation :=
  if password.length < 8 then
    { isValid := false, error := some "Password must be at least 8 characters" }
  else { isValid := true }

/-- Function `isEmail`: the quick at-sign sniff. -/
def isEmail (text : String) : Bool := text.toList.contains '@'

/-! Login flows (the login form component and mobile/hooks/useAuth.ts). -/

/-- JavaScript truthiness filter on an optional string: the empty string is
falsy and treated as absent. -/
def truthyStr : Option String → Option String
  | some s => if s = "" then none else some s
  | none => none

/-- An axios failure as observed by `catch` blocks: either a network error
with no response (`isTimeout` distinguishes the timeout case) or an HTTP
error whose body may carry a `detail` message. -/
inductive ApiError
  | network (isTimeout : Bool)
  | http (status : Nat) (detail : Option String)
deriving Repr, DecidableEq

/-- The optional `detail` field of the error response body. -/
def ApiError.detail : ApiError → Option String
  | .network _ => none
  | .http _ d => d

/-- The body of a successful credential exchange (`AuthResponse`). -/
structure AuthResponse where
  access_token : String
  token_type : String := "bearer"
  user : User
deriving Repr, DecidableEq

/-- Observable outcome of one `handleLogin` invocation. -/
structure LoginOutcome where
  mem : AuthState
  store : Store
  toast : Option String
  exchangeCalled : Bool
  setAuthCalled : Bool
  navigatedTo : Option String
deriving Repr, DecidableEq

/-- Function `handleLogin` of the login form: frontend validation, then the
credential-exchange call on the trimmed identifier (its result `exchange` is
the backend collaborator's answer), then `setAuth` and navigation.  The
`catch` shows the backend's truthy `detail` when present and is otherwise
silent (the interceptor already toasts network/HTTP errors); a `setAuth`
storage failure carries no response, so it shows nothing. -/
def handleLogin (env : StorageEnv) (mem : AuthState) (st : Store)
    (identifier password : String)
    (exchange : Except ApiError AuthResponse) : LoginOutcome :=
  if identifier.trim = "" then
    { mem := mem, store := st,
      toast := some "Please enter your email or phone number",
      exchangeCalled := false, setAuthCalled := false, navigatedTo := none }
  else if password = "" then
    { mem := mem, store := st, toast := some "Please enter your password",
      exchangeCalled := false, setAuthCalled := false, navigatedTo := none }
  else if isEmail identifier && !validateEmail identifier then
    { mem := mem, store := st,
      toast := some "Please enter a valid email address",
      exchangeCalled := false, setAuthCalled := false, navigatedTo := none }
  else if !isEmail identifier && !validatePhone identifier then
    { mem := mem, store := st,
      toast := some "Please enter a valid phone number",
      exchangeCalled := false, setAuthCalled := false, navigatedTo := none }
  else if !(validatePassword password).isValid then
    { mem := mem, store := st, toast := (validatePassword password).error,
      exchangeCalled := false, setAuthCalled := false, navigatedTo := none }
  else
    match exchange with
    | .error e =>
      { mem := mem, store := st, toast := truthyStr e.detail,
        exchangeCalled := true, setAuthCalled := false, navigatedTo := none }
    | .ok resp =>
      match setAuth env mem st resp.access_token resp.user with
      | .ok (m, s) =>
        { mem := m, store := s, toast := none, exchangeCalled := true,
          setAuthCalled := true, navigatedTo := some "/profile-setup" }
      | .error (m, s) =>
        { mem := m, store := s, toast := none, exchangeCalled := true,
          setAuthCalled := true, navigatedTo := none }

/-- Observable outcome of `useAuth`'s `login`. -/
structure UseAuthLoginOutcome where
  mem : AuthState
  store : Store
  threw : Bool
  setAuthCalled : Bool
  navigatedTo : Option String
deriving Repr, DecidableEq

/-- Function `login` in `useAuth.ts`: no validation and no `catch` — a failing
exchange (or a `setAuth` storage failure) propagates to the caller after the
`finally` clears the loading flag. -/
def useAuthLogin (env : StorageEnv) (mem : AuthState) (st : Store)
    (exchange : Except ApiError AuthResponse) : UseAuthLoginOutcome :=
  match exchange with
  | .error _ =>
    { mem := mem, store := st, threw := true, setAuthCalled := false,
      navigatedTo := none }
  | .ok resp =>
    match setAuth env mem st resp.access_token resp.user with
    | .ok (m, s) =>
      { mem := m, store := s, threw := false, setAuthCalled := true,
        navigatedTo := some "/profile-setup" }
    | .error (m, s) =>
      { mem := m, store := s, threw := true, setAuthCalled := true,
        navigatedTo := none }

/-- C6: when the credential-exchange call fails, neither login path creates a
session: `setAuth` is never invoked, both storage slots are untouched, and
the in-memory auth state is exactly what it was (so it remains
unauthenticated). -/
theorem login_failure_creates_no_session (env : StorageEnv) (mem : AuthState)
    (st : Store) (identifier password : String) (e : ApiError) :
    ((handleLogin env mem st identifier password (.error e)).setAuthCalled = false
        ∧ (handleLogin env mem st identifier password (.error e)).mem = mem
        ∧ (handleLogin env mem st identifier password (.error e)).store = st)
      ∧ useAuthLogin env mem st (.error e)
          = { mem := mem, store := st, threw := true, setAuthCalled := false,
              navigatedTo := none } := by
  constructor
  · unfold handleLogin
    repeat' split
    all_goals first
      | exact ⟨rfl, rfl, rfl⟩
      | simp_all
  · rfl

/-! Apple sign-in flow (mobile/hooks/useAppleAuth.ts). -/

/-- The `fullName` object of an Apple credential (given and family name,
each possibly null). -/
structure AppleFullName where
  givenName : Option String := none
  familyName : Option String := none
deriving Repr, DecidableEq

/-- The credential returned by the Apple sign-in SDK call. -/
structure AppleCredential where
  identityToken : Option String := none
  email : Option String := none
  fullName : Option AppleFullName := none
deriving Repr, DecidableEq

/-- The optional `user_data` payload sent to the backend on first consent. -/
structure AppleUserData where
  email : Option String := none
  full_name : Option String := none
deriving Repr, DecidableEq

/-- Display-name string built from the name parts (empty parts become empty
strings, joined by a space, then trimmed). -/
def appleDisplayName (n : AppleFullName) : String :=
  ((n.givenName.getD "") ++ " " ++ (n.familyName.getD "")).trim

/-- The `userData` construction in `signInWithApple`: present only when the
credential carries a truthy email or a fullName object. -/
def mkAppleUserData (cred : AppleCredential) : Option AppleUserData :=
  if (truthyStr cred.email).isSome || cred.fullName.isSome then
    some { email := truthyStr cred.email,
           full_name := cred.fullName.map appleDisplayName }
  else none

/-- Outcome of the Apple SDK sign-in call: the user may cancel (the
`ERR_REQUEST_CANCELED` code), the SDK may fail otherwise, or a credential is
returned. -/
inductive AppleSignInResult
  | canceled
  | sdkFailure
  | credential (cred : AppleCredential)
deriving Repr, DecidableEq

/-- Observable outcome of one `signInWithApple` invocation. -/
structure AppleFlowOutcome where
  mem : AuthState
  store : Store
  toast : Option String
  providerNonce : Option String
  backendCall : Option (String × String × Option AppleUserData)
  setAuthCalled : Bool
  navigatedTo : Option String
deriving Repr, DecidableEq

/-- Function `signInWithApple`: availability gate; the nonce is the SHA-256
digest (`digest` is the external crypto primitive) of the string of the
random number freshly drawn in this invocation (`rand`); provider sign-in is
requested with that nonce; a falsy identity token throws; the backend
exchange is sent the identity token, the same nonce, and the optional user
data; then `setAuth` and navigation.  The `catch` is silent exactly on the
cancellation code, shows the backend's truthy `detail` when present, and
otherwise shows the generic failure toast. -/
def signInWithApple (digest : String → String) (env : StorageEnv)
    (mem : AuthState) (st : Store) (isAvailable : Bool) (rand : String)
    (provider : AppleSignInResult)
    (backend : Except ApiError AuthResponse) : AppleFlowOutcome :=
  if !isAvailable then
    { mem := mem, store := st,
      toast := some "Apple Sign In is not available on this device",
      providerNonce := none, backendCall := none, setAuthCalled := false,
      navigatedTo := none }
  else
    let nonce := digest rand
    match provider with
    | .canceled =>
      { mem := mem, store := st, toast := none, providerNonce := some nonce,
        backendCall := none, setAuthCalled := false, navigatedTo := none }
    | .sdkFailure =>
      { mem := mem, store := st,
        toast := some "Sign in with Apple failed. Please try again.",
        providerNonce := some nonce, backendCall := none,
        setAuthCalled := false, navigatedTo := none }
    | .credential cred =>
      match truthyStr cred.identityToken with
      | none =>
        { mem := mem, store := st,
          toast := some "Sign in with Apple failed. Please try again.",
          providerNonce := some nonce, backendCall := none,
          setAuthCalled := false, navigatedTo := none }
      | some idTok =>
        match backend with
        | .error e =>
          { mem := mem, store := st,
            toast := some ((truthyStr e.detail).getD
              "Sign in with Apple failed. Please try again."),
            providerNonce := some nonce,
            backendCall := some (idTok, nonce, mkAppleUserData cred),
            setAuthCalled := false, navigatedTo := none }
        | .ok resp =>
          match setAuth env mem st resp.access_token resp.user with
          | .ok (m, s) =>
            { mem := m, store := s, toast := none,
              providerNonce := some nonce,
              backendCall := some (idTok, nonce, mkAppleUserData cred),
              setAuthCalled := true, navigatedTo := some "/profile-setup" }
          | .error (m, s) =>
            { mem := m, store := s,
              toast := some "Sign in with Apple failed. Please try again.",
              providerNonce := some nonce,
              backendCall := some (idTok, nonce, mkAppleUserData cred),
              setAuthCalled := true, navigatedTo := none }

/-! Google sign-in flow (mobile/hooks/useGoogleAuth.ts). -/

/-- Outcome of the Google SDK portion (`hasPlayServices` plus the sign-in
call): cancellation, the in-progress and play-services status codes, another
SDK failure, or a signed-in user whose id token may still be absent. -/
inductive GoogleSignInResult
  | cancelled
  | inProgress
  | playServicesNotAvailable
  | sdkFailure
  | signedIn (idToken : Option String)
deriving Repr, DecidableEq

/-- Observable outcome of one `signInWithGoogle` invocation. -/
structure GoogleFlowOutcome where
  mem : AuthState
  store : Store
  toast : Option String
  backendCall : Option String
  setAuthCalled : Bool
  navigatedTo : Option String
deriving Repr, DecidableEq

/-- Function `signInWithGoogle`: play-services check and provider sign-in; a
falsy id token throws; backend exchange; `setAuth`; navigation.  The `catch`
is silent exactly on the cancellation status code, maps the in-progress and
play-services codes to their messages, shows the backend's truthy `detail`
when present, and otherwise the generic failure toast. -/
def signInWithGoogle (env : StorageEnv) (mem : AuthState) (st : Store)
    (provider : GoogleSignInResult)
    (backend : Except ApiError AuthResponse) : GoogleFlowOutcome :=
  match provider with
  | .cancelled =>
    { mem := mem, store := st, toast := none, backendCall := none,
      setAuthCalled := false, navigatedTo := none }
  | .inProgress =>
    { mem := mem, store := st, toast := some "Sign in already in progress",
      backendCall := none, setAuthCalled := false, navigatedTo := none }
  | .playServicesNotAvailable =>
    { mem := mem, store := st,
      toast := some "Google Play Services not available",
      backendCall := none, setAuthCalled := false, navigatedTo := none }
  | .sdkFailure =>
    { mem := mem, store := st,
      toast := some "Sign in with Google failed. Please try again.",
      backendCall := none, setAuthCalled := false, navigatedTo := none }
  | .signedIn idToken =>
    match truthyStr idToken with
    | none =>
      { mem := mem, store := st,
        toast := some "Sign in with Google failed. Please try again.",
        backendCall := none, setAuthCalled := false, navigatedTo := none }
    | some idTok =>
      match backend with
      | .error e =>
        { mem := mem, store := st,
          toast := some ((truthyStr e.detail).getD
            "Sign in with Google failed. Please try again."),
          backendCall := some idTok, setAuthCalled := false,
          navigatedTo := none }
      | .ok resp =>
        match setAuth env mem st resp.access_token resp.user with
        | .ok (m, s) =>
          { mem := m, store := s, toast := none, backendCall := some idTok,
            setAuthCalled := true, navigatedTo := some "/profile-setup" }
        | .error (m, s) =>
          { mem := m, store := s,
            toast := some "Sign in with Google failed. Please try again.",
            backendCall := some idTok, setAuthCalled := true,
            navigatedTo := none }

/-- C7: with Apple sign-in available, every invocation derives its nonce as
the SHA-256 digest of the random value freshly drawn in that invocation,
passes exactly that nonce to the provider sign-in request, and, whenever the
backend exchange is reached, sends the identical nonce alongside the
identity token. -/
theorem apple_nonce_fresh_and_consistent (digest : String → String)
    (env : StorageEnv) (mem : AuthState) (st : Store) (rand : String)
    (provider : AppleSignInResult) (backend : Except ApiError AuthResponse) :
    (signInWithApple digest env mem st true rand provider backend).providerNonce
        = some (digest rand)
      ∧ ∀ idTok nonce ud,
          (signInWithApple digest env mem st true rand provider backend).backendCall
              = some (idTok, nonce, ud) → nonce = digest rand := by
  constructor
  · cases provider with
    | canceled => rfl
    | sdkFailure => rfl
    | credential cred =>
      cases htk : truthyStr cred.identityToken with
      | none => simp [signInWithApple, htk]
      | some idTok =>
        cases backend with
        | error e => simp [signInWithApple, htk]
        | ok resp =>
          cases h : setAuth env mem st resp.access_token resp.user with
          | ok r => cases r; simp [signInWithApple, htk, h]
          | error r => cases r; simp [signInWithApple, htk, h]
  · intro idTok nonce ud hcall
    cases provider with
    | canceled => simp [signInWithApple] at hcall
    | sdkFailure => simp [signInWithApple] at hcall
    | credential cred =>
      cases htk : truthyStr cred.identityToken with
      | none => simp [signInWithApple, htk] at hcall
      | some idTok2 =>
        cases backend with
        | error e =>
          simp [signInWithApple, htk] at hcall
          exact hcall.2.1.symm
        | ok resp =>
          cases h : setAuth env mem st resp.access_token resp.user with
          | ok r =>
            cases r
            simp [signInWithApple, htk, h] at hcall
            exact hcall.2.1.symm
          | error r =>
            cases r
            simp [signInWithApple, htk, h] at hcall
            exact hcall.2.1.symm

/-- C7 witness: a concrete run with a stand-in digest function. -/
theorem apple_nonce_fresh_and_consistent_witness :
    (signInWithApple (fun s => "#" ++ s) {} initialAuthState {} true "0.5"
          (.credential { identityToken := some "itok" })
          (.ok { access_token := "tok", user := demoUser })).providerNonce
        = some "#0.5"
      ∧ "#0.5" = (fun s : String => "#" ++ s) "0.5" :=
  ⟨(apple_nonce_fresh_and_consistent (fun s => "#" ++ s) {} initialAuthState {}
      "0.5" (.credential { identityToken := some "itok" })
      (.ok { access_token := "tok", user := demoUser })).1,
   (apple_nonce_fresh_and_consistent (fun s => "#" ++ s) {} initialAuthState {}
      "0.5" (.credential { identityToken := some "itok" })
      (.ok { access_token := "tok", user := demoUser })).2
     "itok" "#0.5" none rfl⟩

/-- C9: user cancellation of the Apple or Google OAuth flow is a silent
no-op — no toast, no backend call, no `setAuth`, no navigation, state
untouched — and in both flows every failure other than cancellation surfaces
an error toast: a toast-free run is either the cancellation or a completed
sign-in that navigated onward. -/
theorem oauth_cancellation_silent_noop (digest : String → String)
    (env : StorageEnv) (mem : AuthState) (st : Store) (rand : String)
    (appleProvider : AppleSignInResult) (googleProvider : GoogleSignInResult)
    (appleBackend googleBackend : Except ApiError AuthResponse) :
    signInWithApple digest env mem st true rand .canceled appleBackend
        = { mem := mem, store := st, toast := none,
            providerNonce := some (digest rand), backendCall := none,
            setAuthCalled := false, navigatedTo := none }
      ∧ signInWithGoogle env mem st .cancelled googleBackend
          = { mem := mem, store := st, toast := none, backendCall := none,
              setAuthCalled := false, navigatedTo := none }
      ∧ ((signInWithApple digest env mem st true rand appleProvider
              appleBackend).toast = none →
            appleProvider = .canceled
              ∨ (signInWithApple digest env mem st true rand appleProvider
                    appleBackend).navigatedTo = some "/profile-setup")
      ∧ ((signInWithGoogle env mem st googleProvider googleBackend).toast = none →
            googleProvider = .cancelled
              ∨ (signInWithGoogle env mem st googleProvider
                    googleBackend).navigatedTo = some "/profile-setup") := by
  refine ⟨rfl, rfl, ?_, ?_⟩
  · intro htoast
    cases appleProvider with
    | canceled => exact Or.inl rfl
    | sdkFailure => simp [signInWithApple] at htoast
    | credential cred =>
      cases htk : truthyStr cred.identityToken with
      | none => simp [signInWithApple, htk] at htoast
      | some idTok =>
        cases appleBackend with
        | error e => simp [signInWithApple, htk] at htoast
        | ok resp =>
          cases h : setAuth env mem st resp.access_token resp.user with
          | ok r =>
            cases r
            exact Or.inr (by simp [signInWithApple, htk, h])
          | error r =>
            cases r
            simp [signInWithApple, htk, h] at htoast
  · intro htoast
    cases googleProvider with
    | cancelled => exact Or.inl rfl
    | inProgress => simp [signInWithGoogle] at htoast
    | playServicesNotAvailable => simp [signInWithGoogle] at htoast
    | sdkFailure => simp [signInWithGoogle] at htoast
    | signedIn idToken =>
      cases htk : truthyStr idToken with
      | none => simp [signInWithGoogle, htk] at htoast
      | some idTok =>
        cases googleBackend with
        | error e => simp [signInWithGoogle, htk] at htoast
        | ok resp =>
          cases h : setAuth env mem st resp.access_token resp.user with
          | ok r =>
            cases r
            exact Or.inr (by simp [signInWithGoogle, htk, h])
          | error r =>
            cases r
            simp [signInWithGoogle, htk, h] at htoast

/-- C9 witness: a cancelled Apple run is toast-free, and the theorem's
surfacing direction applied to it yields the cancellation disjunct. -/
theorem oauth_cancellation_silent_noop_witness :
    AppleSignInResult.canceled = AppleSignInResult.canceled
      ∨ (signInWithApple (fun s => s) {} initialAuthState {} true "r"
            .canceled (.ok { access_token := "t", user := demoUser })).navigatedTo
          = some "/profile-setup" :=
  (oauth_cancellation_silent_noop (fun s => s) {} initialAuthState {} "r"
      .canceled .cancelled (.ok { access_token := "t", user := demoUser })
      (.ok { access_token := "t", user := demoUser })).2.2.1 rfl

/-! Verification Code Manager.

Modelled from the spec: the backend Verification Code Manager (spec section
4.2) is not among the sources under src/ — the repository ships only the
mobile client, which calls the manager's HTTP endpoints (verify-email,
resend-email-code, send-phone-code, verify-phone in services/auth.ts) — so
its state and the `issue`/`redeem` operations are modelled from the spec's
contract.
-/

/-- Delivery channel of a verification code. -/
inductive Channel
  | email
  | phone
deriving Repr, DecidableEq

/-- Modelled from the spec: the VerificationCode record — channel, target,
fixed-length numeric code, validity window, and the single-use consumed
flag. -/
structure VerificationCode where
  channel : Channel
  target : String
  code : String
  issued_at : Nat
  expires_at : Nat
  consumed : Bool := false
deriving Repr, DecidableEq

/-- Typed failures of `redeem`. -/
inductive RedeemFailure
  | CodeExpired
  | CodeMismatch
  | NoActiveCode
deriving Repr, DecidableEq

/-- Modelled from the spec: lookup of the live (unconsumed) code for a
(channel, target) pair; the store keeps at most one. -/
def findActive (codes : List VerificationCode) (ch : Channel) (target : String) :
    Option VerificationCode :=
  codes.find? fun c =>
    decide (c.channel = ch) && decide (c.target = target) && !c.consumed

/-- Modelled from the spec: flag every code of the pair as consumed (used on
successful redeem, and by `issue` to invalidate prior unconsumed codes). -/
def consumeCode (codes : List VerificationCode) (ch : Channel) (target : String) :
    List VerificationCode :=
  codes.map fun c =>
    if c.channel = ch ∧ c.target = target then { c with consumed := true } else c

/-- Modelled from the spec: `issue` invalidates any prior unconsumed code for
the same (channel, target) pair and records a fresh code with its validity
window (the code value and clock are inputs; dispatch is out of band). -/
def issue (codes : List VerificationCode) (ch : Channel) (target : String)
    (newCode : String) (now ttl : Nat) : List VerificationCode :=
  { channel := ch, target := target, code := newCode, issued_at := now,
    expires_at := now + ttl, consumed := false } :: consumeCode codes ch target

/-- Modelled from the spec: `redeem` — no live code for the pair reports
`NoActiveCode` (a consumed code counts as absent); the expiry check precedes
the equality check; a mismatching candidate reports `CodeMismatch`; on a
match the code is consumed. -/
def redeem (codes : List VerificationCode) (ch : Channel)
    (target candidate : String) (now : Nat) :
    Except RedeemFailure (List VerificationCode) :=
  match findActive codes ch target with
  | none => .error .NoActiveCode
  | some c =>
    if c.expires_at < now then .error .CodeExpired
    else if candidate ≠ c.code then .error .CodeMismatch
    else .ok (consumeCode codes ch target)

/-- Helper: after consuming a pair, no live code remains for that pair. -/
theorem findActive_consumeCode (codes : List VerificationCode) (ch : Channel)
    (target : String) : findActive (consumeCode codes ch target) ch target = none := by
  unfold findActive
  rw [List.find?_eq_none]
  intro x hx
  rcases List.mem_map.mp hx with ⟨c, hc, rfl⟩
  by_cases h : c.channel = ch ∧ c.target = target
  · simp [h]
  · rcases not_and_or.mp h with h1 | h1 <;> simp [h, h1]

/-- C8: redemption is single-use — after a successful redeem of a code, a
second redeem attempt with the identical channel, target and code (at any
later or equal clock reading) fails with `NoActiveCode`. -/
theorem redeem_single_use (codes codes2 : List VerificationCode) (ch : Channel)
    (target candidate : String) (now now2 : Nat)
    (h : redeem codes ch target candidate now = .ok codes2) :
    redeem codes2 ch target candidate now2 = .error .NoActiveCode := by
  have hcodes2 : codes2 = consumeCode codes ch target := by
    unfold redeem at h
    cases hfa : findActive codes ch target with
    | none => rw [hfa] at h; cases h
    | some c =>
      rw [hfa] at h
      by_cases h1 : c.expires_at < now
      · simp [h1] at h
      · by_cases h2 : candidate ≠ c.code
        · simp [h1, h2] at h
        · simp [h1, h2] at h; exact h.symm
  subst hcodes2
  unfold redeem
  rw [findActive_consumeCode]

/-- C8 witness: the six-digit code 123456 issued for an email target is
redeemed once; the second identical attempt reports `NoActiveCode`. -/
theorem redeem_single_use_witness :
    redeem [{ channel := Channel.email, target := "jane@example.com",
              code := "123456", issued_at := 0, expires_at := 600,
              consumed := true }]
        Channel.email "jane@example.com" "123456" 20
      = .error .NoActiveCode :=
  redeem_single_use
    [{ channel := Channel.email, target := "jane@example.com",
       code := "123456", issued_at := 0, expires_at := 600 }]
    [{ channel := Channel.email, target := "jane@example.com",
       code := "123456", issued_at := 0, expires_at := 600,
       consumed := true }]
    Channel.email "jane@example.com" "123456" 10 20 rfl

end HotRide
